import Mathlib

/-!
Verification of the stream-mapping decision engine of the
`ArabCoders/unmanic-plugins` repository, covering the two plugins
`encoder_audio_custom` and `remove_stream_by_language`
(`src/source/*/plugin.py`).

Python strings are modelled as `String`, Python dicts of stream tags as
association lists (`List (String × String)`; a missing `tags` entry is
`none`), and ffprobe stream dictionaries as a `StreamDescriptor`
structure.  Logging calls are modelled as explicit log-event values
returned alongside results where a claim depends on a diagnostic being
emitted.  The shared `lib/ffmpeg` engine (StreamMapper, Probe, command
assembly) is not part of the provided sources; those pieces are
modelled from the specification and marked as such.
-/

/-- Single-quote character, used inside ffmpeg filter argument strings. -/
def squote : String := String.mk [Char.ofNat 39]

/-- Containment of `needle` as a contiguous sublist of a list of characters,
mirroring the Python `in` operator on strings. -/
def subListOf (needle : List Char) : List Char → Bool
  | [] => needle.isEmpty
  | c :: rest => needle.isPrefixOf (c :: rest) || subListOf needle rest

/-- Python `needle in haystack` on strings: substring containment. -/
def strContains (haystack needle : String) : Bool :=
  subListOf needle.data haystack.data

/-- Python `s.lower()`, character by character (the configuration and
tag values of these plugins are ASCII). -/
def strToLower (s : String) : String :=
  String.mk (s.data.map Char.toLower)

/-- Python `s.strip()`: drop leading and trailing whitespace. -/
def strTrim (s : String) : String :=
  String.mk (((s.data.dropWhile Char.isWhitespace).reverse.dropWhile
    Char.isWhitespace).reverse)

/-- Split a character list at every character satisfying `p`, keeping
empty fragments (the behavior of Python `split` with an explicit
separator). -/
def splitOnPred (p : Char → Bool) : List Char → List (List Char)
  | [] => [[]]
  | c :: rest =>
    if p c then [] :: splitOnPred p rest
    else
      match splitOnPred p rest with
      | [] => [[c]]
      | g :: gs => (c :: g) :: gs

/-- Python `list(filter(None, s.split(,)))`: split a comma separated
setting string and drop empty entries. -/
def splitComma (s : String) : List String :=
  ((splitOnPred (fun c => c == Char.ofNat 44) s.data).map String.mk).filter
    (fun t => t != "")

/-- Python `s.split()` with no argument: split on whitespace runs,
dropping empty fragments. -/
def splitWhitespace (s : String) : List String :=
  ((splitOnPred Char.isWhitespace s.data).map String.mk).filter
    (fun t => t != "")

/-- One elementary stream of an ffprobe result (§3 Stream Descriptor).
`channels` and `tags` are optional fields of the probe dictionary. -/
structure StreamDescriptor where
  index : Nat := 0
  codec_type : String := ""
  codec_name : String := ""
  channels : Option Nat := none
  tags : Option (List (String × String)) := none
deriving DecidableEq

/-- Python truthiness of the `tags` value: `None` and the empty dict are
falsy, a non-empty dict is truthy. -/
def tagsTruthy : Option (List (String × String)) → Bool
  | none => false
  | some [] => false
  | some (_ :: _) => true

/-- Python `True in list(k.lower() in [key] for k in stream_tags)`:
some tag key equals `key` after lowercasing. -/
def hasKeyCI (tags : Option (List (String × String))) (key : String) : Bool :=
  (tags.getD []).any (fun kv => strToLower kv.1 == key)

/-- Python `stream_tags.get(key, dflt)`: exact-key dictionary lookup with
a default. -/
def tagsGet (tags : Option (List (String × String))) (key dflt : String) : String :=
  match (tags.getD []).find? (fun kv => kv.1 == key) with
  | some kv => kv.2
  | none => dflt

/-- Result of a plugin's `custom_stream_mapping`: the per-stream mapping
and encoding argument fragments. -/
structure MappingResult where
  stream_mapping : List String := []
  stream_encoding : List String := []
deriving DecidableEq

/-- Modelled from the spec: the Probe Result (§3) produced by the
`lib/ffmpeg` Probe helper, which is not under the provided sources.
Only the ordered stream list is relevant to the engine. -/
structure ProbeResult where
  streams : List StreamDescriptor := []
deriving DecidableEq

/-- Accumulated state of one Stream Mapper evaluation (§3, §4.2):
ordered mapping and encoding fragments plus the file-level verdict. -/
structure MapperState where
  stream_mapping : List String := []
  stream_encoding : List String := []
  needs_processing : Bool := false
deriving DecidableEq

/-- Modelled from the spec: the core evaluation loop of the shared
`lib/ffmpeg` StreamMapper (§4.2), which is not under the provided
sources.  Streams whose `codec_type` is not in `allowed` are skipped
without incrementing any counter; each allowed stream receives the
running per-codec-type `stream_id` (post-increment, 0-based); when the
predicate holds, the builder's fragments are appended in stream order
and the verdict becomes true. -/
def evaluateStreams (allowed : List String) (pred : StreamDescriptor → Bool)
    (builder : StreamDescriptor → Nat → MappingResult) :
    List StreamDescriptor → (String → Nat) → MapperState
  | [], _ => {}
  | s :: rest, counters =>
    if allowed.contains s.codec_type then
      let sid := counters s.codec_type
      let counters2 := fun t => if t == s.codec_type then sid + 1 else counters t
      let tail := evaluateStreams allowed pred builder rest counters2
      if pred s then
        let m := builder s sid
        { stream_mapping := m.stream_mapping ++ tail.stream_mapping,
          stream_encoding := m.stream_encoding ++ tail.stream_encoding,
          needs_processing := true }
      else tail
    else evaluateStreams allowed pred builder rest counters

/-- Modelled from the spec: `StreamMapper.streams_need_processing` of
`lib/ffmpeg` (§4.2): the verdict of one full evaluation starting from
zeroed per-codec-type counters. -/
def streamsNeedProcessing (allowed : List String) (pred : StreamDescriptor → Bool)
    (builder : StreamDescriptor → Nat → MappingResult)
    (streams : List StreamDescriptor) : Bool :=
  (evaluateStreams allowed pred builder streams (fun _ => 0)).needs_processing

/-- Modelled from the spec: the mapper's file-level audio stream count
(`self.audio_stream_count` of `lib/ffmpeg`, not under the provided
sources): the number of probe streams whose codec type is audio
(codec types are normalized to lowercase by the probe, §4.1). -/
def audioStreamCount (streams : List StreamDescriptor) : Nat :=
  (streams.filter (fun s => s.codec_type == "audio")).length

/-- The `data` object of the `on_worker_process` runner hook: the fields
the plugins read or write. `progressParserSet` records whether the hook
installed a progress parser; `repeatFlag` stands for the `repeat` entry
(a Lean keyword). -/
structure WorkerData where
  file_in : String := ""
  file_out : String := ""
  original_file_path : String := ""
  exec_command : List String := []
  repeatFlag : Bool := false
  progressParserSet : Bool := false
deriving DecidableEq

/-- The `data` object of the `on_library_management_file_test` runner
hook: the fields the plugins read or write. -/
structure LibData where
  path : String := ""
  add_file_to_pending_tasks : Bool := false
deriving DecidableEq

/-- Modelled from the spec: the Command Assembler (§4.5) of
`lib/ffmpeg` (`StreamMapper.get_ffmpeg_args`, not under the provided
sources): global input/copy defaults, the accumulated per-stream
fragments, and the output path, as one flat ordered argument list. -/
def getFfmpegArgs (input_file output_file : String) (ms : MapperState) : List String :=
  ["-hide_banner", "-loglevel", "info", "-i", input_file, "-map", "0", "-c", "copy"]
    ++ ms.stream_mapping ++ ms.stream_encoding ++ ["-y", output_file]

namespace RemoveStreamByLanguage

/-- Configuration of the `remove_stream_by_language` plugin
(`Settings.settings` of its `plugin.py`); all three values default to
the empty string. -/
structure Settings where
  languages_audio : String := ""
  languages_subtitle : String := ""
  title_audio_or_sub : String := ""
deriving DecidableEq

/-- Diagnostic log events emitted by `test_tags_for_search_string`. -/
inductive LogEvent where
  | lastAudioGuard
  | noLanguageTag (stream_id : Nat)
deriving DecidableEq

/-- The title-phrase branch of `test_tags_for_search_string`
(plugin.py lines 61-68): the tags dict is truthy and has a `title` key
(case-insensitively), the configured phrase list is non-empty, and some
non-empty comma-separated phrase occurs (lowercased) in the value of
the exact `title` tag (missing exact key reads as the empty string). -/
def titleMatches (st : Settings) (stream_tags : Option (List (String × String))) : Bool :=
  tagsTruthy stream_tags && hasKeyCI stream_tags "title" &&
    st.title_audio_or_sub != "" &&
    (splitComma st.title_audio_or_sub).any
      (fun t => strContains (strToLower (tagsGet stream_tags "title" "")) (strToLower t))

/-- The language-matching loop of `test_tags_for_search_string`
(plugin.py lines 82-88): some non-empty comma-separated code, stripped
and lowercased, occurs in the lowercased value of the exact `language`
tag (missing exact key reads as the empty string). -/
def languageMatches (language_list : String) (stream_tags : Option (List (String × String))) : Bool :=
  (splitComma language_list).any
    (fun l =>
      let l2 := strTrim l
      l2 != "" && strContains (strToLower (tagsGet stream_tags "language" "")) (strToLower l2))

/-- `PluginStreamMapper.test_tags_for_search_string` (plugin.py lines
58-92).  Returns the boolean result together with the warning events it
logs.  `audio_stream_count` stands for `self.audio_stream_count`. -/
def test_tags_for_search_string (st : Settings) (audio_stream_count : Nat)
    (stream_tags : Option (List (String × String))) (stream_id : Nat)
    (codec_type : String) : Bool × List LogEvent :=
  if titleMatches st stream_tags then (true, [])
  else if tagsTruthy stream_tags && hasKeyCI stream_tags "language" then
    if codec_type == "subtitle" then
      if st.languages_subtitle == "" then (false, [])
      else (languageMatches st.languages_subtitle stream_tags, [])
    else
      if audio_stream_count ≤ 1 then (false, [LogEvent.lastAudioGuard])
      else if st.languages_audio == "" then (false, [])
      else (languageMatches st.languages_audio stream_tags, [])
  else (false, [LogEvent.noLanguageTag stream_id])

/-- `PluginStreamMapper.test_stream_needs_processing` (plugin.py lines
94-98): delegates to `test_tags_for_search_string` with the stream's
tags, absolute index, and lowercased codec type. -/
def test_stream_needs_processing (st : Settings) (audio_stream_count : Nat)
    (s : StreamDescriptor) : Bool :=
  (test_tags_for_search_string st audio_stream_count s.tags s.index (strToLower s.codec_type)).1

/-- `PluginStreamMapper.custom_stream_mapping` (plugin.py lines
100-105): the removal builder, returning empty mapping and encoding
fragments for every stream. -/
def custom_stream_mapping (_s : StreamDescriptor) (_stream_id : Nat) : MappingResult :=
  { stream_mapping := [], stream_encoding := [] }

/-- The mapper verdict of this plugin: allowed codec types
`audio, subtitle`, with the predicate reading the file-level audio
stream count. -/
def streams_need_processing (st : Settings) (streams : List StreamDescriptor) : Bool :=
  streamsNeedProcessing ["audio", "subtitle"]
    (test_stream_needs_processing st (audioStreamCount streams))
    custom_stream_mapping streams

/-- Return value of `on_library_management_file_test`, which returns
either the bare boolean `False` or the `data` object. -/
inductive LibTestReturn where
  | boolFalse
  | dataObj (d : LibData)
deriving DecidableEq

/-- `on_library_management_file_test` (plugin.py lines 108-154).  The
probe outcome is passed in as `probeResult` (`none` models a falsy
`probe.file` result). -/
def on_library_management_file_test (st : Settings) (probeResult : Option ProbeResult)
    (data : LibData) : LibTestReturn :=
  if st.languages_subtitle == "" && st.languages_audio == "" then
    LibTestReturn.boolFalse
  else
    match probeResult with
    | none => LibTestReturn.dataObj data
    | some probe =>
      if streams_need_processing st probe.streams then
        LibTestReturn.dataObj { data with add_file_to_pending_tasks := true }
      else
        LibTestReturn.dataObj data

/-- `on_worker_process` (plugin.py lines 157-209).  The probe outcome is
passed in as `probeResult` (`none` models a falsy `probe.file`
result). -/
def on_worker_process (st : Settings) (probeResult : Option ProbeResult)
    (data : WorkerData) : WorkerData :=
  let data := { data with exec_command := [], repeatFlag := false }
  match probeResult with
  | none => data
  | some probe =>
    if streams_need_processing st probe.streams then
      let ms := evaluateStreams ["audio", "subtitle"]
        (test_stream_needs_processing st (audioStreamCount probe.streams))
        custom_stream_mapping probe.streams (fun _ => 0)
      { data with
          exec_command := ["ffmpeg"] ++ getFfmpegArgs data.file_in data.file_out ms,
          progressParserSet := true }
    else data

end RemoveStreamByLanguage

namespace EncoderAudioCustom

/-- Configuration of the `encoder_audio_custom` plugin
(`Settings.settings` of its `plugin.py`) with its documented default
values. -/
structure Settings where
  advanced : Bool := false
  custom_options : String := ""
  if_not_found : String := "opus"
  use_codec_lib : String := "libopus"
  bitrate : Nat := 0
deriving DecidableEq

/-- Debug log emitted by `calculate_bitrate`: either the
missing-channels diagnostic or the calculated-bitrate message. -/
inductive CalcLog where
  | noChannelsDefault
  | basedOnChannels (channels bitrate : Nat)
deriving DecidableEq

/-- `PluginStreamMapper.calculate_bitrate` (plugin.py lines 97-109):
64 kilobits per channel; a falsy `channels` value (absent or zero)
yields the flat default 64 with a diagnostic.  Returns the bitrate in
kilobits together with the debug log it emits. -/
def calculate_bitrate (stream_info : StreamDescriptor) : Nat × CalcLog :=
  match stream_info.channels with
  | none => (64, CalcLog.noChannelsDefault)
  | some 0 => (64, CalcLog.noChannelsDefault)
  | some c => (64 * c, CalcLog.basedOnChannels c (64 * c))

/-- `PluginStreamMapper.test_stream_needs_processing` (plugin.py lines
111-116): false exactly when the lowercased `codec_name` is a member of
the singleton list holding the configured `if_not_found` value. -/
def test_stream_needs_processing (st : Settings) (stream_info : StreamDescriptor) : Bool :=
  if [st.if_not_found].contains (strToLower stream_info.codec_name) then false
  else true

/-- `PluginStreamMapper.custom_stream_mapping` (plugin.py lines
118-144): the re-encode builder. -/
def custom_stream_mapping (st : Settings) (stream_info : StreamDescriptor)
    (stream_id : Nat) : MappingResult :=
  let toCodec := st.use_codec_lib
  let stream_encoding := ["-c:a:" ++ toString stream_id, toCodec]
  let bitrate := if st.bitrate == 0 then (calculate_bitrate stream_info).1 else st.bitrate
  let stream_encoding := stream_encoding ++
    ["-b:a:" ++ toString stream_id,
     toString bitrate ++ "k",
     "-ac:a:" ++ toString stream_id,
     toString (stream_info.channels.getD 0),
     "-af:a:" ++ toString stream_id,
     "aformat=" ++ ("channel_layouts=" ++ squote ++ "7.1|5.1|stereo|mono" ++ squote)]
  let stream_encoding :=
    if st.advanced then stream_encoding ++ splitWhitespace st.custom_options
    else stream_encoding
  { stream_mapping := ["-map", "0:a:" ++ toString stream_id],
    stream_encoding := stream_encoding }

/-- The mapper verdict of this plugin: allowed codec type `audio`. -/
def streams_need_processing (st : Settings) (streams : List StreamDescriptor) : Bool :=
  streamsNeedProcessing ["audio"]
    (test_stream_needs_processing st) (custom_stream_mapping st) streams

/-- `on_library_management_file_test` (plugin.py lines 147-180).  The
probe outcome is passed in as `probeResult` (`none` models a falsy
`probe.file` result). -/
def on_library_management_file_test (st : Settings) (probeResult : Option ProbeResult)
    (data : LibData) : LibData :=
  match probeResult with
  | none => data
  | some probe =>
    if streams_need_processing st probe.streams then
      { data with add_file_to_pending_tasks := true }
    else data

/-- `on_worker_process` (plugin.py lines 183-235).  The probe outcome is
passed in as `probeResult` (`none` models a falsy `probe.file`
result). -/
def on_worker_process (st : Settings) (probeResult : Option ProbeResult)
    (data : WorkerData) : WorkerData :=
  let data := { data with exec_command := [], repeatFlag := false }
  match probeResult with
  | none => data
  | some probe =>
    if streams_need_processing st probe.streams then
      let ms := evaluateStreams ["audio"]
        (test_stream_needs_processing st) (custom_stream_mapping st)
        probe.streams (fun _ => 0)
      { data with
          exec_command := ["ffmpeg"] ++ getFfmpegArgs data.file_in data.file_out ms,
          progressParserSet := true }
    else data

end EncoderAudioCustom

/-- Helper: the character data of a non-empty string is a non-empty
list. -/
theorem data_ne_nil_of_ne_empty {t : String} (h : t ≠ "") : t.data ≠ [] := by
  intro hd
  apply h
  cases t with
  | mk l =>
    have hl : l = [] := hd
    subst hl
    rfl

/-- Helper: lowercasing the empty string gives the empty string. -/
theorem strToLower_empty : strToLower "" = "" := rfl

/-- Helper: the empty string contains no non-empty substring, and
lowercasing preserves non-emptiness. -/
theorem strContains_empty_strToLower {t : String} (h : t ≠ "") :
    strContains "" (strToLower t) = false := by
  have hd := data_ne_nil_of_ne_empty h
  show subListOf (strToLower t).data [] = false
  show (strToLower t).data.isEmpty = false
  show (t.data.map Char.toLower).isEmpty = false
  simp [List.isEmpty_iff, hd]

/-- Helper: every entry produced by `splitComma` is non-empty. -/
theorem mem_splitComma_ne {s t : String} (h : t ∈ splitComma s) : t ≠ "" := by
  unfold splitComma at h
  have h2 := (List.mem_filter.mp h).2
  simpa using h2

/-- Helper: when the exact lowercase `title` key is absent from the tags
(its lookup reads the empty string), the title-phrase branch never
matches. -/
theorem titleMatches_of_no_title (st : RemoveStreamByLanguage.Settings)
    (stream_tags : Option (List (String × String)))
    (ht : tagsGet stream_tags "title" "" = "") :
    RemoveStreamByLanguage.titleMatches st stream_tags = false := by
  unfold RemoveStreamByLanguage.titleMatches
  rw [ht, strToLower_empty]
  have hany : (splitComma st.title_audio_or_sub).any
      (fun t => strContains "" (strToLower t)) = false := by
    rw [List.any_eq_false]
    intro t hmem
    simp [strContains_empty_strToLower (mem_splitComma_ne hmem)]
  rw [hany]
  simp

/-- Helper: when the exact lowercase `language` key is absent from the
tags (its lookup reads the empty string), the language loop never
matches. -/
theorem languageMatches_of_no_language (language_list : String)
    (stream_tags : Option (List (String × String)))
    (hl : tagsGet stream_tags "language" "" = "") :
    RemoveStreamByLanguage.languageMatches language_list stream_tags = false := by
  unfold RemoveStreamByLanguage.languageMatches
  rw [hl, strToLower_empty]
  rw [List.any_eq_false]
  intro l hmem
  by_cases h2 : strTrim l = ""
  · simp [h2]
  · simp [strContains_empty_strToLower h2]

/-- C1 counterexample: a file whose only audio stream carries a `title`
tag matching a configured removal phrase is still flagged for removal —
`test_stream_needs_processing` returns true at audio stream count 1, so
the last-audio-track guard does not cover the title branch, refuting
the claim as stated. -/
theorem claim_C1_counterexample :
    audioStreamCount [⟨0, "audio", "aac", none,
        some [("title", "Director Commentary"), ("language", "eng")]⟩] = 1
    ∧ RemoveStreamByLanguage.test_stream_needs_processing ⟨"eng", "", "commentary"⟩ 1
        ⟨0, "audio", "aac", none,
          some [("title", "Director Commentary"), ("language", "eng")]⟩ = true := by
  constructor <;> decide

/-- C1 amended: the last-audio-track guard covers the language branch
only.  For an audio stream evaluated at mapper-scope audio stream count
1, whenever the title branch does not match, the predicate returns
false — even when the stream's language tag matches a configured
removal language; a matching title still removes the stream. -/
theorem claim_C1_amended (st : RemoveStreamByLanguage.Settings) (s : StreamDescriptor)
    (hct : s.codec_type = "audio")
    (htitle : RemoveStreamByLanguage.titleMatches st s.tags = false) :
    RemoveStreamByLanguage.test_stream_needs_processing st 1 s = false := by
  unfold RemoveStreamByLanguage.test_stream_needs_processing
    RemoveStreamByLanguage.test_tags_for_search_string
  rw [hct, htitle]
  have h3 : (strToLower "audio" == "subtitle") = false := by decide
  by_cases h2 : (tagsTruthy s.tags && hasKeyCI s.tags "language") = true
  · simp [h2, h3]
  · rw [Bool.not_eq_true] at h2
    simp [h2]

/-- C1 amended witness: one audio stream whose language tag matches the
configured removal language `eng` is retained at audio stream count
1. -/
theorem claim_C1_amended_witness :
    StreamDescriptor.codec_type ⟨0, "audio", "aac", none, some [("language", "eng")]⟩ = "audio"
    ∧ RemoveStreamByLanguage.titleMatches ⟨"eng", "", ""⟩ (some [("language", "eng")]) = false
    ∧ RemoveStreamByLanguage.languageMatches "eng" (some [("language", "eng")]) = true
    ∧ RemoveStreamByLanguage.test_stream_needs_processing ⟨"eng", "", ""⟩ 1
        ⟨0, "audio", "aac", none, some [("language", "eng")]⟩ = false :=
  ⟨rfl, by decide, by decide,
    claim_C1_amended ⟨"eng", "", ""⟩
      ⟨0, "audio", "aac", none, some [("language", "eng")]⟩ rfl (by decide)⟩

/-- C6: for every stream whose tags are falsy or contain no key that
lowercases to `language`, and whose title branch does not match,
`test_tags_for_search_string` returns false together with exactly the
missing-language-tag diagnostic for that stream — never true, and
never an error (the function is total). -/
theorem claim_C6_missing_language_tag (st : RemoveStreamByLanguage.Settings)
    (count : Nat) (stream_tags : Option (List (String × String)))
    (sid : Nat) (ct : String)
    (hmiss : tagsTruthy stream_tags = false ∨ hasKeyCI stream_tags "language" = false)
    (htitle : RemoveStreamByLanguage.titleMatches st stream_tags = false) :
    RemoveStreamByLanguage.test_tags_for_search_string st count stream_tags sid ct =
      (false, [RemoveStreamByLanguage.LogEvent.noLanguageTag sid]) := by
  unfold RemoveStreamByLanguage.test_tags_for_search_string
  rw [htitle]
  have h2 : (tagsTruthy stream_tags && hasKeyCI stream_tags "language") = false := by
    rcases hmiss with h | h <;> simp [h]
  simp [h2]

/-- C6 witness: a stream with no tags at all yields false plus the
diagnostic naming its stream index. -/
theorem claim_C6_missing_language_tag_witness :
    (tagsTruthy (none : Option (List (String × String))) = false
      ∨ hasKeyCI (none : Option (List (String × String))) "language" = false)
    ∧ RemoveStreamByLanguage.titleMatches ⟨"eng", "", "commentary"⟩ none = false
    ∧ RemoveStreamByLanguage.test_tags_for_search_string ⟨"eng", "", "commentary"⟩ 2 none 3 "audio" =
        (false, [RemoveStreamByLanguage.LogEvent.noLanguageTag 3]) :=
  ⟨Or.inl rfl, by decide,
    claim_C6_missing_language_tag ⟨"eng", "", "commentary"⟩ 2 none 3 "audio"
      (Or.inl rfl) (by decide)⟩

/-- C9: for every stream descriptor and every stream id, the removal
builder `custom_stream_mapping` of the `remove_stream_by_language`
plugin returns an empty `stream_mapping` list and an empty
`stream_encoding` list. -/
theorem claim_C9_removal_builder_empty (s : StreamDescriptor) (sid : Nat) :
    RemoveStreamByLanguage.custom_stream_mapping s sid =
      { stream_mapping := [], stream_encoding := [] } := rfl

/-- C2: end-to-end re-encode scenario.  For a stream with
`codec_name = aac` and `channels = 2` under the default configuration
(`if_not_found = opus`, `use_codec_lib = libopus`, `bitrate = 0`,
`advanced = false`), the predicate returns true, and
`custom_stream_mapping` at stream id 0 yields mapping
`[-map, 0:a:0]` and encoding
`[-c:a:0, libopus, -b:a:0, 128k, -ac:a:0, 2, -af:a:0,`
`aformat=channel_layouts=(squote)7.1|5.1|stereo|mono(squote)]`. -/
theorem claim_C2_end_to_end_reencode :
    EncoderAudioCustom.test_stream_needs_processing {}
        ⟨0, "audio", "aac", some 2, none⟩ = true
    ∧ EncoderAudioCustom.custom_stream_mapping {} ⟨0, "audio", "aac", some 2, none⟩ 0 =
      { stream_mapping := ["-map", "0:a:0"],
        stream_encoding := ["-c:a:0", "libopus", "-b:a:0", "128k", "-ac:a:0", "2",
          "-af:a:0",
          "aformat=channel_layouts=" ++ squote ++ "7.1|5.1|stereo|mono" ++ squote] } := by
  constructor <;> decide

/-- C4 counterexample: with `if_not_found = OPUS` (uppercase) and a
stream of `codec_name = opus`, the configured value equals the codec
name ignoring case, yet `test_stream_needs_processing` returns true —
refuting the claim that the match is case-insensitive on the configured
side as well. -/
theorem claim_C4_counterexample :
    strToLower (StreamDescriptor.codec_name ⟨0, "audio", "opus", some 2, none⟩) =
      strToLower (EncoderAudioCustom.Settings.if_not_found ⟨false, "", "OPUS", "libopus", 0⟩)
    ∧ EncoderAudioCustom.test_stream_needs_processing ⟨false, "", "OPUS", "libopus", 0⟩
        ⟨0, "audio", "opus", some 2, none⟩ = true := by
  constructor <;> decide

/-- C4 amended: `test_stream_needs_processing` of the
`encoder_audio_custom` plugin returns false exactly when the stream's
lowercased `codec_name` equals the configured `if_not_found` value
verbatim: the comparison is case-insensitive in the stream's codec name
only, not in the configured value. -/
theorem claim_C4_amended (st : EncoderAudioCustom.Settings) (s : StreamDescriptor) :
    EncoderAudioCustom.test_stream_needs_processing st s = false ↔
      strToLower s.codec_name = st.if_not_found := by
  unfold EncoderAudioCustom.test_stream_needs_processing
  by_cases h : strToLower s.codec_name = st.if_not_found <;>
    simp [h, List.contains]

/-- C5 counterexample: two streams whose tags differ only in the letter
case of the `language` key (`LANGUAGE` vs `language`, same value `eng`)
get different results from the unwanted-language predicate under the
same configuration — the uppercase key is detected as present but its
value is read through the exact lowercase key and comes back empty, so
the match fails.  This refutes the claim that lookups are
key-case-insensitive. -/
theorem claim_C5_counterexample :
    (RemoveStreamByLanguage.test_tags_for_search_string ⟨"eng", "", ""⟩ 2
        (some [("LANGUAGE", "eng")]) 0 "audio").1 = false
    ∧ (RemoveStreamByLanguage.test_tags_for_search_string ⟨"eng", "", ""⟩ 2
        (some [("language", "eng")]) 0 "audio").1 = true := by
  constructor <;> decide

/-- C5 amended: key presence is detected case-insensitively, but tag
values are fetched with the exact lowercase keys `title` and
`language`; whenever those exact lookups read the empty string (in
particular when the tags are stored only under differently-cased
keys), the predicate returns false for every configuration, stream
count, and codec type. -/
theorem claim_C5_amended (st : RemoveStreamByLanguage.Settings) (count : Nat)
    (stream_tags : Option (List (String × String))) (sid : Nat) (ct : String)
    (ht : tagsGet stream_tags "title" "" = "")
    (hl : tagsGet stream_tags "language" "" = "") :
    (RemoveStreamByLanguage.test_tags_for_search_string st count stream_tags sid ct).1 = false := by
  have hsub := languageMatches_of_no_language st.languages_subtitle stream_tags hl
  have haud := languageMatches_of_no_language st.languages_audio stream_tags hl
  unfold RemoveStreamByLanguage.test_tags_for_search_string
  rw [titleMatches_of_no_title st stream_tags ht]
  by_cases h2 : (tagsTruthy stream_tags && hasKeyCI stream_tags "language") = true
  · simp only [h2, Bool.false_eq_true, if_false, if_true]
    split
    · split <;> simp [hsub]
    · split
      · rfl
      · split <;> simp [haud]
  · rw [Bool.not_eq_true] at h2
    simp [h2]

/-- C5 amended witness: tags stored only under uppercase `LANGUAGE` and
`TITLE` keys never trigger removal, although both values would match
the configuration. -/
theorem claim_C5_amended_witness :
    tagsGet (some [("LANGUAGE", "eng"), ("TITLE", "foo")]) "title" "" = ""
    ∧ tagsGet (some [("LANGUAGE", "eng"), ("TITLE", "foo")]) "language" "" = ""
    ∧ (RemoveStreamByLanguage.test_tags_for_search_string ⟨"eng", "", "foo"⟩ 2
        (some [("LANGUAGE", "eng"), ("TITLE", "foo")]) 0 "audio").1 = false :=
  ⟨rfl, rfl,
    claim_C5_amended ⟨"eng", "", "foo"⟩ 2
      (some [("LANGUAGE", "eng"), ("TITLE", "foo")]) 0 "audio" rfl rfl⟩

/-- C3 counterexample: for a stream whose `channels` field is present
with value 0 and configured bitrate 0, the builder emits `64k`, not the
`64 * channels = 0` kilobits the claim's defaulting rule prescribes —
the flat default applies to every falsy channel count, not only to an
absent field. -/
theorem claim_C3_counterexample :
    (EncoderAudioCustom.custom_stream_mapping ⟨false, "", "opus", "libopus", 0⟩
        ⟨0, "audio", "aac", some 0, none⟩ 0).stream_encoding[3]? = some "64k"
    ∧ some "64k" ≠ some (toString (64 * 0) ++ "k") := by
  constructor <;> decide

/-- C3 amended: with configured bitrate 0 the builder takes its bitrate
from `calculate_bitrate`, which yields `64 * channels` kilobits for a
present non-zero channel count (e.g. 6 channels give 384k), and the
flat default 64 with the missing-channels diagnostic whenever the
channel count is absent or zero. -/
theorem claim_C3_amended :
    (∀ (st : EncoderAudioCustom.Settings) (s : StreamDescriptor) (sid : Nat),
      st.bitrate = 0 →
        (EncoderAudioCustom.custom_stream_mapping st s sid).stream_encoding[3]? =
          some (toString (EncoderAudioCustom.calculate_bitrate s).1 ++ "k"))
    ∧ (∀ (s : StreamDescriptor) (c : Nat), s.channels = some c → c ≠ 0 →
        EncoderAudioCustom.calculate_bitrate s =
          (64 * c, EncoderAudioCustom.CalcLog.basedOnChannels c (64 * c)))
    ∧ (∀ (s : StreamDescriptor), s.channels = none ∨ s.channels = some 0 →
        EncoderAudioCustom.calculate_bitrate s =
          (64, EncoderAudioCustom.CalcLog.noChannelsDefault)) := by
  refine ⟨?_, ?_, ?_⟩
  · intro st s sid hb
    unfold EncoderAudioCustom.custom_stream_mapping
    rw [hb]
    simp only [beq_self_eq_true, if_true]
    split <;> simp
  · intro s c hc h0
    unfold EncoderAudioCustom.calculate_bitrate
    rw [hc]
    cases c with
    | zero => exact absurd rfl h0
    | succ k => rfl
  · intro s h
    unfold EncoderAudioCustom.calculate_bitrate
    rcases h with h | h <;> rw [h]

/-- C3 amended witness: a 6-channel stream with configured bitrate 0
yields `384k`, and a stream without a channel count yields the flat 64
with the diagnostic. -/
theorem claim_C3_amended_witness :
    (EncoderAudioCustom.custom_stream_mapping ⟨false, "", "opus", "libopus", 0⟩
        ⟨0, "audio", "aac", some 6, none⟩ 0).stream_encoding[3]? =
      some (toString (EncoderAudioCustom.calculate_bitrate ⟨0, "audio", "aac", some 6, none⟩).1 ++ "k")
    ∧ EncoderAudioCustom.calculate_bitrate ⟨0, "audio", "aac", some 6, none⟩ =
        (64 * 6, EncoderAudioCustom.CalcLog.basedOnChannels 6 (64 * 6))
    ∧ EncoderAudioCustom.calculate_bitrate ⟨0, "audio", "aac", none, none⟩ =
        (64, EncoderAudioCustom.CalcLog.noChannelsDefault) :=
  ⟨claim_C3_amended.1 ⟨false, "", "opus", "libopus", 0⟩ ⟨0, "audio", "aac", some 6, none⟩ 0 rfl,
    claim_C3_amended.2.1 ⟨0, "audio", "aac", some 6, none⟩ 6 rfl (by decide),
    claim_C3_amended.2.2 ⟨0, "audio", "aac", none, none⟩ (Or.inl rfl)⟩

/-- C8: probe failure exclusion.  When the probe step fails (modelled by
`probeResult = none`), `on_worker_process` of both plugins returns the
data object with `exec_command` the empty list (and `repeat` false),
`on_library_management_file_test` of the encoder plugin returns the
data object unchanged, and that of the removal plugin returns either
the bare `False` or the data object unchanged — no file is marked for
processing and no command is produced. -/
theorem claim_C8_probe_failure_exclusion
    (stE : EncoderAudioCustom.Settings) (stR : RemoveStreamByLanguage.Settings)
    (dE dR : WorkerData) (lE lR : LibData) :
    EncoderAudioCustom.on_worker_process stE none dE =
        { dE with exec_command := [], repeatFlag := false }
    ∧ RemoveStreamByLanguage.on_worker_process stR none dR =
        { dR with exec_command := [], repeatFlag := false }
    ∧ EncoderAudioCustom.on_library_management_file_test stE none lE = lE
    ∧ (RemoveStreamByLanguage.on_library_management_file_test stR none lR =
          RemoveStreamByLanguage.LibTestReturn.boolFalse
        ∨ RemoveStreamByLanguage.on_library_management_file_test stR none lR =
          RemoveStreamByLanguage.LibTestReturn.dataObj lR) := by
  refine ⟨rfl, rfl, rfl, ?_⟩
  unfold RemoveStreamByLanguage.on_library_management_file_test
  split
  · exact Or.inl rfl
  · exact Or.inr rfl

/-- C7: no-op command on no work.  Whenever the mapper verdict
`streams_need_processing` is false for the probed streams,
`on_worker_process` of both plugins returns the data object with
`exec_command` equal to the empty list and `repeat` false — no
transcoder invocation is produced. -/
theorem claim_C7_noop_when_no_processing
    (stE : EncoderAudioCustom.Settings) (stR : RemoveStreamByLanguage.Settings)
    (pE pR : ProbeResult) (dE dR : WorkerData)
    (hE : EncoderAudioCustom.streams_need_processing stE pE.streams = false)
    (hR : RemoveStreamByLanguage.streams_need_processing stR pR.streams = false) :
    EncoderAudioCustom.on_worker_process stE (some pE) dE =
        { dE with exec_command := [], repeatFlag := false }
    ∧ RemoveStreamByLanguage.on_worker_process stR (some pR) dR =
        { dR with exec_command := [], repeatFlag := false } := by
  constructor
  · unfold EncoderAudioCustom.on_worker_process
    simp [hE]
  · unfold RemoveStreamByLanguage.on_worker_process
    simp [hR]

/-- C7 witness: a file whose only audio stream is already `opus` under
the default encoder configuration, and a file with a single video
stream under the removal plugin, both produce the empty command. -/
theorem claim_C7_noop_when_no_processing_witness :
    EncoderAudioCustom.streams_need_processing {}
        [⟨0, "audio", "opus", some 2, none⟩] = false
    ∧ RemoveStreamByLanguage.streams_need_processing ⟨"eng", "", ""⟩
        [⟨0, "video", "h264", none, none⟩] = false
    ∧ EncoderAudioCustom.on_worker_process {} (some ⟨[⟨0, "audio", "opus", some 2, none⟩]⟩) {} =
        { ({} : WorkerData) with exec_command := [], repeatFlag := false }
    ∧ RemoveStreamByLanguage.on_worker_process ⟨"eng", "", ""⟩
        (some ⟨[⟨0, "video", "h264", none, none⟩]⟩) {} =
        { ({} : WorkerData) with exec_command := [], repeatFlag := false } :=
  ⟨by decide, by decide,
    (claim_C7_noop_when_no_processing {} ⟨"eng", "", ""⟩
      ⟨[⟨0, "audio", "opus", some 2, none⟩]⟩ ⟨[⟨0, "video", "h264", none, none⟩]⟩
      {} {} (by decide) (by decide)).1,
    (claim_C7_noop_when_no_processing {} ⟨"eng", "", ""⟩
      ⟨[⟨0, "audio", "opus", some 2, none⟩]⟩ ⟨[⟨0, "video", "h264", none, none⟩]⟩
      {} {} (by decide) (by decide)).2⟩

/-- C10: when both `languages_audio` and `languages_subtitle` are
empty, `on_library_management_file_test` of the
`remove_stream_by_language` plugin returns the bare boolean `False`
for every probe outcome and every data object — it never flags the
file, and the result is independent of the probe, even when
`title_audio_or_sub` phrases are configured. -/
theorem claim_C10_empty_language_config_blocks
    (st : RemoveStreamByLanguage.Settings)
    (hA : st.languages_audio = "") (hS : st.languages_subtitle = "")
    (probeResult : Option ProbeResult) (data : LibData) :
    RemoveStreamByLanguage.on_library_management_file_test st probeResult data =
      RemoveStreamByLanguage.LibTestReturn.boolFalse := by
  unfold RemoveStreamByLanguage.on_library_management_file_test
  simp [hA, hS]

/-- C10 witness: a concrete configuration with only title phrases set,
and a probe that did find a matching-looking stream, still yields the
bare `False`. -/
theorem claim_C10_empty_language_config_blocks_witness :
    RemoveStreamByLanguage.Settings.languages_audio ⟨"", "", "foo,bar"⟩ = ""
    ∧ RemoveStreamByLanguage.Settings.languages_subtitle ⟨"", "", "foo,bar"⟩ = ""
    ∧ RemoveStreamByLanguage.on_library_management_file_test ⟨"", "", "foo,bar"⟩
        (some ⟨[⟨0, "audio", "aac", some 2, some [("title", "foo")]⟩]⟩) {} =
      RemoveStreamByLanguage.LibTestReturn.boolFalse :=
  ⟨rfl, rfl,
    claim_C10_empty_language_config_blocks ⟨"", "", "foo,bar"⟩ rfl rfl
      (some ⟨[⟨0, "audio", "aac", some 2, some [("title", "foo")]⟩]⟩) {}⟩
